import Mathlib

/-!
Verification of the nonce-allocation and gas-price escalation engine of
`maintainer/ethereum/shared.py` (keep-network/relays).  Each definition is a
shallow embedding of the corresponding Python function; global mutable state
(`NONCE`, `LATEST_PENDING_NONCE`) is passed explicitly.
-/

/-- Constant `GWEI = 1000000000` (shared.py line 15). -/
def GWEI : Int := 1000000000

/-- Constant `DEFAULT_GAS = 500_000` (line 16). -/
def DEFAULT_GAS : Int := 500000

/-- Constant `DEFAULT_GAS_PRICE = 20 * GWEI` (line 17). -/
def DEFAULT_GAS_PRICE : Int := 20 * GWEI

/-- Constant `MAX_GAS_PRICE = 80 * GWEI` (line 18). -/
def MAX_GAS_PRICE : Int := 80 * GWEI

/-- Embeds `_compute_tx_gas_price(tx_nonce, tx_ticks)` (lines 213-219), with the
global `LATEST_PENDING_NONCE` passed explicitly.  Python's float literal `0.2`
and `round` are embedded exactly over the rationals (the value rounded is an
exact integer, so no floating rounding mode is exercised). -/
def _compute_tx_gas_price (latest_pending_nonce tx_nonce tx_ticks : Int) : Int :=
  let gas_price_factor : Int := max ((latest_pending_nonce - tx_nonce + 1) * tx_ticks) 0
  let adjusted_gas_price : Int :=
    round ((1 + (gas_price_factor : ℚ) * (0.2 : ℚ)) * (DEFAULT_GAS_PRICE : ℚ))
  max (min adjusted_gas_price MAX_GAS_PRICE) DEFAULT_GAS_PRICE

/-- Spec-side restatement of the `escalate(nonce, ticks, highestAllocated)`
contract (spec section 4.1), written from the spec's words for comparison with
`_compute_tx_gas_price`: factor, price formula, then clamp into
`[DEFAULT_GAS_PRICE, MAX_GAS_PRICE]`. -/
def escalate_spec (nonce ticks highestAllocated : Int) : Int :=
  let factor : Int := max ((highestAllocated - nonce + 1) * ticks) 0
  let price : Int := round ((1 + (factor : ℚ) * (0.2 : ℚ)) * (DEFAULT_GAS_PRICE : ℚ))
  if price < DEFAULT_GAS_PRICE then DEFAULT_GAS_PRICE
  else if price > MAX_GAS_PRICE then MAX_GAS_PRICE
  else price

lemma round_gas_formula (f : Int) :
    round ((1 + (f : ℚ) * (0.2 : ℚ)) * (DEFAULT_GAS_PRICE : ℚ))
      = DEFAULT_GAS_PRICE + f * 4000000000 := by
  have h : (1 + (f : ℚ) * (0.2 : ℚ)) * (DEFAULT_GAS_PRICE : ℚ)
      = ((DEFAULT_GAS_PRICE + f * 4000000000 : Int) : ℚ) := by
    simp only [DEFAULT_GAS_PRICE, GWEI]
    push_cast
    ring_nf
  rw [h, round_intCast]

lemma compute_tx_gas_price_eq (lpn n t : Int) :
    _compute_tx_gas_price lpn n t
      = max (min (DEFAULT_GAS_PRICE + max ((lpn - n + 1) * t) 0 * 4000000000)
          MAX_GAS_PRICE) DEFAULT_GAS_PRICE := by
  simp only [_compute_tx_gas_price, round_gas_formula]

lemma escalate_spec_eq (n t hA : Int) :
    escalate_spec n t hA
      = (if DEFAULT_GAS_PRICE + max ((hA - n + 1) * t) 0 * 4000000000 < DEFAULT_GAS_PRICE
          then DEFAULT_GAS_PRICE
        else if DEFAULT_GAS_PRICE + max ((hA - n + 1) * t) 0 * 4000000000 > MAX_GAS_PRICE
          then MAX_GAS_PRICE
        else DEFAULT_GAS_PRICE + max ((hA - n + 1) * t) 0 * 4000000000) := by
  simp only [escalate_spec, round_gas_formula]

/-- C1: `_compute_tx_gas_price` computes exactly the escalation formula of the
spec — `round((1 + max((highestAllocated - nonce + 1) * ticks, 0) * 0.2) *
DEFAULT_GAS_PRICE)` clamped into `[DEFAULT_GAS_PRICE, MAX_GAS_PRICE]` — and in
particular returns `32000000000` for nonce 5, ticks 3, highestAllocated 5. -/
theorem compute_gas_price_matches_escalate :
    (∀ nonce ticks highestAllocated : Int,
      _compute_tx_gas_price highestAllocated nonce ticks
        = escalate_spec nonce ticks highestAllocated)
    ∧ DEFAULT_GAS_PRICE = 20000000000 ∧ 32000000000 ≤ MAX_GAS_PRICE
    ∧ _compute_tx_gas_price 5 5 3 = 32000000000 := by
  refine ⟨fun nonce ticks hA => ?_, by norm_num [DEFAULT_GAS_PRICE, GWEI],
    by norm_num [MAX_GAS_PRICE, GWEI], ?_⟩
  · rw [compute_tx_gas_price_eq, escalate_spec_eq]
    generalize (max ((hA - nonce + 1) * ticks) 0 : Int) = f
    simp only [DEFAULT_GAS_PRICE, MAX_GAS_PRICE, GWEI, max_def, min_def]
    split_ifs <;> omega
  · rw [compute_tx_gas_price_eq]
    norm_num [DEFAULT_GAS_PRICE, MAX_GAS_PRICE, GWEI]

/-- The process-wide nonce bookkeeping of shared.py: the nonce generator's
current index (`NONCE`, lines 21 and 24-29) and the `LATEST_PENDING_NONCE`
high-water mark (line 22). -/
structure EthState where
  nonceIndex : Int
  latestPendingNonce : Int
deriving DecidableEq

/-- Embeds the nonce bookkeeping of `init()` (lines 59-79).  `chainMinedCount`
is the chain-reported already-mined transaction count (the decoded result of
the `eth_getTransactionCount(address, "latest")` call) and `chainPendingNonce`
is the chain-reported pending transaction count (the result of
`get_nonce(address)`).  The code stores `mined_tx_count = chainMinedCount - 1`,
`LATEST_PENDING_NONCE = chainPendingNonce - 1`, and starts the generator at
`mined_tx_count + 1`. -/
def init (chainMinedCount chainPendingNonce : Int) : EthState :=
  let mined_tx_count := chainMinedCount - 1
  let latest_pending_nonce := chainPendingNonce - 1
  let next_nonce := mined_tx_count + 1
  ⟨next_nonce, latest_pending_nonce⟩

/-- One step of the `_nonce` generator (lines 24-29): yield the current index,
then increment it. -/
def nonceNext (index : Int) : Int × Int := (index, index + 1)

/-- The `LATEST_PENDING_NONCE` update performed by `make_call_tx`
(lines 173-174): `if nonce > LATEST_PENDING_NONCE: LATEST_PENDING_NONCE =
nonce`. -/
def bumpPendingNonce (latest_pending_nonce nonce : Int) : Int :=
  if nonce > latest_pending_nonce then nonce else latest_pending_nonce

/-- One allocation as the code performs it: draw `next(NONCE)` from the
generator (lines 24-29) and record the drawn nonce in the high-water mark via
`make_call_tx`'s update (lines 173-174). -/
def allocate (s : EthState) : Int × EthState :=
  ((nonceNext s.nonceIndex).1,
   ⟨(nonceNext s.nonceIndex).2,
    bumpPendingNonce s.latestPendingNonce (nonceNext s.nonceIndex).1⟩)

/-- Runs `N` successive allocations, returning the list of drawn nonces and
the final state. -/
def allocRun : EthState → Nat → List Int × EthState
  | s, 0 => ([], s)
  | s, Nat.succ k =>
      ((allocate s).1 :: (allocRun (allocate s).2 k).1, (allocRun (allocate s).2 k).2)

/-- C4 counterexample: at chain-reported mined count 5 and pending count 7 the
code sets the next nonce to 5 (not 5 + 1) and the high-water mark to 6
(not 7). -/
theorem init_claim_counterexample :
    ¬ ((init 5 7).nonceIndex = 5 + 1 ∧ (init 5 7).latestPendingNonce = 7) := by
  decide

/-- C4 (amended): `init` sets the next nonce to the chain-reported mined
transaction count itself (the code subtracts 1 and then adds 1 back) and sets
the high-water mark to the chain-reported pending count minus 1. -/
theorem init_amended :
    ∀ chainMinedCount chainPendingNonce : Int,
      (init chainMinedCount chainPendingNonce).nonceIndex = chainMinedCount
      ∧ (init chainMinedCount chainPendingNonce).latestPendingNonce
          = chainPendingNonce - 1 := by
  intro m p
  constructor
  · simp only [init]
    omega
  · rfl

lemma allocRun_values (n l : Int) (N : Nat) :
    (allocRun ⟨n, l⟩ N).1 = (List.range N).map (fun k : Nat => n + (k : Int)) := by
  induction N generalizing n l with
  | zero => rfl
  | succ k ih =>
      have hcons : (allocRun ⟨n, l⟩ (k + 1)).1
          = n :: (allocRun ⟨n + 1, bumpPendingNonce l n⟩ k).1 := rfl
      rw [hcons, ih, List.range_succ_eq_map, List.map_cons, List.map_map]
      congr 1
      · push_cast
        ring
      · apply List.map_congr_left
        intro a _
        simp only [Function.comp_apply]
        push_cast
        ring

/-- C6: starting from any initialized state with next nonce `n`, the first `N`
allocations return exactly the contiguous list `n, n+1, ..., n+N-1`: `N`
distinct values, none repeated, none skipped. -/
theorem allocate_contiguous :
    ∀ (n l : Int) (N : Nat),
      (allocRun ⟨n, l⟩ N).1 = (List.range N).map (fun k : Nat => n + (k : Int))
      ∧ ((allocRun ⟨n, l⟩ N).1).Nodup
      ∧ ((allocRun ⟨n, l⟩ N).1).length = N := by
  intro n l N
  have hv := allocRun_values n l N
  refine ⟨hv, ?_, ?_⟩
  · rw [hv]
    exact List.Nodup.map (fun a b hab => by omega) (List.nodup_range N)
  · rw [hv, List.length_map, List.length_range]

lemma allocRun_lpn_mono (N : Nat) : ∀ s : EthState,
    s.latestPendingNonce ≤ ((allocRun s N).2).latestPendingNonce := by
  induction N with
  | zero => intro s; exact le_refl _
  | succ k ih =>
      intro s
      have h1 : s.latestPendingNonce ≤ ((allocate s).2).latestPendingNonce := by
        simp only [allocate, nonceNext, bumpPendingNonce]
        split <;> omega
      calc s.latestPendingNonce ≤ ((allocate s).2).latestPendingNonce := h1
        _ ≤ ((allocRun (allocate s).2 k).2).latestPendingNonce := ih _
        _ = ((allocRun s (k + 1)).2).latestPendingNonce := rfl

/-- C7: each allocation sets the high-water mark to the maximum of its old
value and the returned nonce, and consequently after any run of allocations
the high-water mark dominates every nonce the run handed out. -/
theorem allocate_high_water_invariant :
    (∀ s : EthState,
      ((allocate s).2).latestPendingNonce = max s.latestPendingNonce (allocate s).1)
    ∧ (∀ (s : EthState) (N : Nat) (v : Int),
        v ∈ (allocRun s N).1 → v ≤ ((allocRun s N).2).latestPendingNonce) := by
  constructor
  · intro s
    simp only [allocate, nonceNext, bumpPendingNonce, max_def]
    split <;> split <;> omega
  · intro s N
    induction N generalizing s with
    | zero => intro v hv; simp [allocRun] at hv
    | succ k ih =>
        intro v hv
        rcases List.mem_cons.mp hv with h | h
        · have h1 : v ≤ ((allocate s).2).latestPendingNonce := by
            subst h
            simp only [allocate, nonceNext, bumpPendingNonce]
            split <;> omega
          exact le_trans h1 (allocRun_lpn_mono k _)
        · exact ih _ v h

/-- C7 witness: a concrete run of three allocations from index 0 with initial
high-water mark -5; the nonce 1 handed out is bounded by the final mark. -/
theorem allocate_high_water_invariant_witness :
    (1 : Int) ∈ (allocRun ⟨0, -5⟩ 3).1
    ∧ (1 : Int) ≤ ((allocRun ⟨0, -5⟩ 3).2).latestPendingNonce :=
  ⟨by decide, allocate_high_water_invariant.2 ⟨0, -5⟩ 3 1 (by decide)⟩

/-- Python's substring test over character lists: the needle is a prefix of
some suffix of the haystack (matches membership of the empty needle). -/
def listInfix (needle : List Char) : List Char → Bool
  | [] => needle.isEmpty
  | c :: rest => needle.isPrefixOf (c :: rest) || listInfix needle rest

/-- Embeds the Python expression `needle in hay` for strings. -/
def strContains (hay needle : String) : Bool :=
  listInfix needle.data hay.data

/-- The value of `err.args[0]` in `sign_and_broadcast`'s handler: either a
structured payload (a Python dict, modelled as an association list) or a plain
error string. -/
inductive Payload
  | dict (entries : List (String × String))
  | str (s : String)
deriving DecidableEq

/-- The exceptions the embedded code can raise: `ValueError` from
`_adjust_gas_price` (line 209), `TypeError` from subscripting a dict with a
slice (line 117), `UnboundLocalError` from reading the never-assigned `tx_id`
(line 137), `KeyError` from a dict payload without a `message` key (line 116),
`RuntimeError` from a missing signing credential (line 100), and re-raising
the original submission error (line 135). -/
inductive PyError
  | valueError
  | typeError
  | unboundLocal
  | keyError
  | runtimeNoCredential
  | reraised (p : Payload)
deriving DecidableEq

/-- Embeds the Python expression `needle in err.args[0]`: key membership when
the payload is a dict, substring containment when it is a string. -/
def payloadIn (needle : String) : Payload → Bool
  | .dict entries => entries.any (fun kv => kv.1 == needle)
  | .str s => strContains s needle

/-- Embeds `_adjust_gas_price(gas_price)` (lines 196-211): scale by `GWEI`
when below one `GWEI`, raise `ValueError` when the result exceeds
`1000 * GWEI`. -/
def _adjust_gas_price (gas_price : Int) : Except PyError Int :=
  let gas_price := if gas_price < GWEI then gas_price * GWEI else gas_price
  if gas_price > 1000 * GWEI then Except.error PyError.valueError
  else Except.ok gas_price

/-- C5: `_adjust_gas_price` raises exactly when the (possibly `GWEI`-scaled)
price exceeds `1000 * GWEI`, otherwise returns the scaled-or-unchanged price;
in particular `_adjust_gas_price 5` returns `5 * GWEI` and
`_adjust_gas_price (2000 * GWEI)` raises. -/
theorem adjust_gas_price_spec :
    (∀ p : Int, _adjust_gas_price p = Except.error PyError.valueError
        ↔ (if p < GWEI then p * GWEI else p) > 1000 * GWEI)
    ∧ (∀ p : Int, (if p < GWEI then p * GWEI else p) ≤ 1000 * GWEI →
        _adjust_gas_price p = Except.ok (if p < GWEI then p * GWEI else p))
    ∧ _adjust_gas_price 5 = Except.ok (5 * GWEI)
    ∧ _adjust_gas_price (2000 * GWEI) = Except.error PyError.valueError := by
  refine ⟨fun p => ?_, fun p h => ?_, by rfl, by rfl⟩
  · simp only [_adjust_gas_price]
    constructor
    · intro h
      by_contra hc
      rw [if_neg hc] at h
      exact Except.noConfusion h
    · intro h
      rw [if_pos h]
  · simp only [_adjust_gas_price]
    exact if_neg (not_lt.mpr h)

/-- C5 witness: instantiates the no-error branch of `adjust_gas_price_spec`
at the concrete price 5. -/
theorem adjust_gas_price_spec_witness :
    (if (5 : Int) < GWEI then 5 * GWEI else 5) ≤ 1000 * GWEI
    ∧ _adjust_gas_price 5 = Except.ok (if (5 : Int) < GWEI then 5 * GWEI else 5) :=
  ⟨by decide, adjust_gas_price_spec.2.1 5 (by decide)⟩

/-- The `UnsignedEthTx` record built by `make_call_tx` (lines 184-191):
recipient, value, gas limit, gas price, nonce, encoded call data, chain id.
The source's `to` field is named `toAddr` here because `to` is reserved in
Lean. -/
structure UnsignedEthTx where
  toAddr : String
  value : Int
  gas : Int
  gasPrice : Int
  nonce : Int
  data : List Nat
  chainId : Int
deriving DecidableEq

/-- Embeds `make_call_tx` (lines 142-193), with `LATEST_PENDING_NONCE` passed
in and returned explicitly.  The encoded call data (produced by the external
`calldata.call` collaborator) and the chain id (from configuration) are
parameters.  The order of effects mirrors the source: default gas price
computation (lines 170-171), high-water update (lines 173-174), then gas-price
adjustment (line 176), which may raise. -/
def make_call_tx (latest_pending_nonce : Int) (contract : String)
    (data : List Nat) (nonce value gas gas_price chainId : Int) :
    Int × Except PyError UnsignedEthTx :=
  let gas_price := if gas_price == -1
    then _compute_tx_gas_price latest_pending_nonce nonce 0 else gas_price
  let lpn := bumpPendingNonce latest_pending_nonce nonce
  match _adjust_gas_price gas_price with
  | Except.error e => (lpn, Except.error e)
  | Except.ok gp =>
      (lpn, Except.ok ⟨contract, value, gas, gp, nonce, data, chainId⟩)

/-- C10: whenever `make_call_tx` fails (in particular when
`_adjust_gas_price` raises on a too-high price), the returned
`LATEST_PENDING_NONCE` has nevertheless been advanced to the maximum of its
previous value and the supplied nonce. -/
theorem make_call_tx_bumps_high_water_on_error :
    ∀ (lpn : Int) (contract : String) (data : List Nat)
      (nonce value gas gas_price chainId : Int) (e : PyError),
      (make_call_tx lpn contract data nonce value gas gas_price chainId).2
          = Except.error e →
      (make_call_tx lpn contract data nonce value gas gas_price chainId).1
          = max lpn nonce := by
  intro lpn contract data nonce value gas gas_price chainId e _
  show (make_call_tx lpn contract data nonce value gas gas_price chainId).1 = _
  simp only [make_call_tx]
  rcases _adjust_gas_price (if gas_price == -1
      then _compute_tx_gas_price lpn nonce 0 else gas_price) with e₂ | gp
  · simp only [bumpPendingNonce, max_def]
    split <;> split <;> omega
  · simp only [bumpPendingNonce, max_def]
    split <;> split <;> omega

/-- C10 witness: at high-water 3, nonce 7 and a fat-fingered price of
`2000 * GWEI`, the build fails with `ValueError` yet the high-water mark has
moved to `max 3 7 = 7`. -/
theorem make_call_tx_bumps_high_water_on_error_witness :
    (make_call_tx 3 "0xc" [] 7 0 500000 (2000 * GWEI) 1).2
        = Except.error PyError.valueError
    ∧ (make_call_tx 3 "0xc" [] 7 0 500000 (2000 * GWEI) 1).1 = max 3 7 :=
  ⟨by rfl, make_call_tx_bumps_high_water_on_error 3 "0xc" [] 7 0 500000
    (2000 * GWEI) 1 PyError.valueError (by rfl)⟩

/-- Outcome of the single network submission attempt inside
`sign_and_broadcast` (lines 104-114): either the handle the network returned,
or the `RuntimeError` payload it raised. -/
inductive SubmitOutcome
  | ok (txId : String)
  | err (p : Payload)
deriving DecidableEq

/-- A confirmation-tracker task spawned via
`asyncio.ensure_future(_track_tx_result(...))`: the handle and the ticks value
it starts from. -/
structure TrackerSpawn where
  txId : String
  ticks : Int
deriving DecidableEq

/-- Evaluation of the first branch condition of the handler (line 116):
`type(err.args[0]) is dict and 'known transaction: ' in
dict(err.args[0])['message']`.  Looking up a missing `message` key raises
`KeyError`. -/
def knownTxCheck : Payload → Except PyError Bool
  | Payload.dict entries =>
      match List.lookup "message" entries with
      | none => Except.error PyError.keyError
      | some m => Except.ok (strContains m "known transaction: ")
  | Payload.str _ => Except.ok false

/-- Embeds `sign_and_broadcast(tx, ignore_result, ticks)` (lines 89-139),
abstracting the signing and network submission into `submit` (the claims
concern only the error classification and the trackers spawned).  Returns the
list of tracker tasks spawned, or the exception that propagates:
- submission succeeded: log, then spawn a tracker `(tx_id, ticks)` unless
  `ignore_result` (lines 137-139);
- dict payload whose message contains `'known transaction: '`: the code
  executes `dict(err.args[0])[19:]`, subscripting the dict with a slice,
  which raises `TypeError` (line 117);
- payload containing `'transaction underpriced'` or `'already known'`: spawn
  `_track_tx_result(tx, "")` — ticks defaulting to 0 — and return (lines
  118-127);
- payload containing `'nonce too low'` with `ticks > 0`: fall through to
  line 137, where the f-string reads the never-assigned local `tx_id`,
  raising `UnboundLocalError`;
- otherwise: re-raise the original error (line 135). -/
def sign_and_broadcast (hasCredential : Bool) (submit : SubmitOutcome)
    (ignore_result : Bool) (ticks : Int) : Except PyError (List TrackerSpawn) :=
  if !hasCredential then Except.error PyError.runtimeNoCredential
  else
    match submit with
    | SubmitOutcome.ok txId =>
        Except.ok (if ignore_result then [] else [⟨txId, ticks⟩])
    | SubmitOutcome.err p =>
        match knownTxCheck p with
        | Except.error e => Except.error e
        | Except.ok true => Except.error PyError.typeError
        | Except.ok false =>
            if payloadIn "transaction underpriced" p || payloadIn "already known" p then
              Except.ok [⟨"", 0⟩]
            else if payloadIn "nonce too low" p && decide (ticks > 0) then
              Except.error PyError.unboundLocal
            else Except.error (PyError.reraised p)

/-- The action one iteration of `_track_tx_result`'s polling loop takes
(lines 227-255). -/
inductive TrackAction
  | confirmed
  | resubmit (newTx : UnsignedEthTx) (ticks : Int)
  | continuePolling (ticks : Int)
deriving DecidableEq

/-- Embeds one iteration of `_track_tx_result`'s polling loop (lines
227-255): on a receipt, leave the loop; otherwise increment `ticks`,
recompute the gas price, and when it strictly exceeds `latest_gas_price`
(set from `tx.gasPrice` at line 225 and never reassigned) rebuild the
transaction field by field as at lines 243-250 and resubmit with the
incremented ticks. -/
def track_iteration (latest_pending_nonce : Int) (tx : UnsignedEthTx)
    (ticks : Int) (receipt : Option Unit) : TrackAction :=
  match receipt with
  | some _ => TrackAction.confirmed
  | none =>
      let ticks := ticks + 1
      let new_gas_price := _compute_tx_gas_price latest_pending_nonce tx.nonce ticks
      if new_gas_price > tx.gasPrice then
        TrackAction.resubmit
          { nonce := tx.nonce, gasPrice := new_gas_price, gas := tx.gas,
            toAddr := tx.toAddr, value := tx.value, data := tx.data,
            chainId := tx.chainId } ticks
      else TrackAction.continuePolling ticks

/-- C2: on a submission error whose dict payload's message contains the
known-transaction indicator, `sign_and_broadcast` does not treat the attempt
as a success with the extracted handle: the handle-extraction line subscripts
the dict itself with a slice and raises `TypeError`, which propagates and no
tracker is spawned. -/
theorem known_transaction_branch_raises_type_error :
    sign_and_broadcast true
        (SubmitOutcome.err (Payload.dict [("message", "known transaction: 0xdeadbeef")]))
        false 0
      = Except.error PyError.typeError := by
  rfl

/-- C3: on a resubmission (ticks = 1) whose submission error contains
"nonce too low", `sign_and_broadcast` does not return normally: control falls
through to the dispatch log line, which reads the never-assigned local
`tx_id`, and `UnboundLocalError` propagates. -/
theorem nonce_too_low_raises_unbound_local :
    sign_and_broadcast true (SubmitOutcome.err (Payload.str "nonce too low")) false 1
      = Except.error PyError.unboundLocal := by
  rfl

/-- C8 counterexample: a resubmission at ticks 3 that hits "transaction
underpriced" spawns its confirmation tracker with ticks 0, not with the 3
ticks the attempt had reached. -/
theorem underpriced_tracker_ticks_counterexample :
    sign_and_broadcast true (SubmitOutcome.err (Payload.str "transaction underpriced"))
        false 3
      = Except.ok [⟨"", 0⟩]
    ∧ (0 : Int) ≠ 3 := by
  exact ⟨by rfl, by decide⟩

/-- C8 (amended): the ticks counter is passed through on the success path
(line 139 spawns the tracker with the call's ticks) and on supersession (the
tracker resubmits with its incremented ticks, lines 236 and 254), but the
tracker spawned on the "transaction underpriced" / "already known" branch
(line 126) restarts from ticks 0 with an empty handle. -/
theorem ticks_persistence_amended :
    (∀ (txId : String) (ticks : Int),
      sign_and_broadcast true (SubmitOutcome.ok txId) false ticks
        = Except.ok [⟨txId, ticks⟩])
    ∧ (∀ (lpn : Int) (tx : UnsignedEthTx) (ticks : Int) (newTx : UnsignedEthTx)
        (t : Int), track_iteration lpn tx ticks none = TrackAction.resubmit newTx t →
        t = ticks + 1)
    ∧ (∀ (s : String) (ticks : Int),
        (strContains s "transaction underpriced" || strContains s "already known")
            = true →
        sign_and_broadcast true (SubmitOutcome.err (Payload.str s)) false ticks
          = Except.ok [⟨"", 0⟩]) := by
  refine ⟨fun txId ticks => rfl, fun lpn tx ticks newTx t h => ?_, fun s ticks h => ?_⟩
  · simp only [track_iteration] at h
    split at h
    · injection h with h1 h2
      exact h2.symm
    · exact TrackAction.noConfusion h
  · simp only [sign_and_broadcast, knownTxCheck, payloadIn, Bool.not_true,
      Bool.false_eq_true, if_false]
    rw [if_pos h]

/-- The transaction of the concrete resubmission scenario: nonce 5 at the
default gas price. -/
def tx0 : UnsignedEthTx := ⟨"0xcontract", 0, 500000, 20000000000, 5, [], 1⟩

/-- The transaction `track_iteration` rebuilds from `tx0` after one empty
poll at high-water mark 5: same fields, gas price escalated to 24 GWEI. -/
def tx0resub : UnsignedEthTx := ⟨"0xcontract", 0, 500000, 24000000000, 5, [], 1⟩

lemma track_iteration_example :
    track_iteration 5 tx0 0 none = TrackAction.resubmit tx0resub 1 := by
  have hc : _compute_tx_gas_price 5 5 1 = 24000000000 := by
    rw [compute_tx_gas_price_eq]
    norm_num [DEFAULT_GAS_PRICE, MAX_GAS_PRICE, GWEI]
  simp only [track_iteration, tx0, tx0resub, zero_add, hc]
  norm_num

/-- C8 witness: concrete instances of the amended statement — the tracker
resubmission from `tx0` carries ticks 1 = 0 + 1, and the underpriced branch
at ticks 7 spawns a tracker at ticks 0. -/
theorem ticks_persistence_amended_witness :
    track_iteration 5 tx0 0 none = TrackAction.resubmit tx0resub 1
    ∧ (1 : Int) = 0 + 1
    ∧ (strContains "transaction underpriced" "transaction underpriced"
        || strContains "transaction underpriced" "already known") = true
    ∧ sign_and_broadcast true
        (SubmitOutcome.err (Payload.str "transaction underpriced")) false 7
        = Except.ok [⟨"", 0⟩] :=
  ⟨track_iteration_example,
   ticks_persistence_amended.2.1 5 tx0 0 tx0resub 1 track_iteration_example,
   by decide,
   ticks_persistence_amended.2.2 "transaction underpriced" 7 (by decide)⟩

/-- C9: whenever one tracker iteration resubmits, the rebuilt transaction
keeps the recipient, value, gas limit, nonce, call data and chain id of its
predecessor, and its gas price is at least — indeed strictly above — the
predecessor's, the resubmission being issued only under the
strictly-greater-price guard of line 241. -/
theorem resubmission_preserves_identity :
    ∀ (lpn : Int) (tx : UnsignedEthTx) (ticks : Int) (newTx : UnsignedEthTx)
      (t : Int),
      track_iteration lpn tx ticks none = TrackAction.resubmit newTx t →
      newTx.toAddr = tx.toAddr ∧ newTx.value = tx.value ∧ newTx.gas = tx.gas
      ∧ newTx.nonce = tx.nonce ∧ newTx.data = tx.data ∧ newTx.chainId = tx.chainId
      ∧ tx.gasPrice ≤ newTx.gasPrice ∧ tx.gasPrice < newTx.gasPrice := by
  intro lpn tx ticks newTx t h
  simp only [track_iteration] at h
  split at h
  case isTrue hgt =>
    injection h with h1 h2
    subst h1
    exact ⟨rfl, rfl, rfl, rfl, rfl, rfl, le_of_lt hgt, hgt⟩
  case isFalse hgt =>
    exact TrackAction.noConfusion h

/-- C9 witness: the concrete resubmission of `tx0` preserves every identity
field and raises the gas price from 20 GWEI to 24 GWEI. -/
theorem resubmission_preserves_identity_witness :
    track_iteration 5 tx0 0 none = TrackAction.resubmit tx0resub 1
    ∧ (tx0resub.toAddr = tx0.toAddr ∧ tx0resub.value = tx0.value
      ∧ tx0resub.gas = tx0.gas ∧ tx0resub.nonce = tx0.nonce
      ∧ tx0resub.data = tx0.data ∧ tx0resub.chainId = tx0.chainId
      ∧ tx0.gasPrice ≤ tx0resub.gasPrice ∧ tx0.gasPrice < tx0resub.gasPrice) :=
  ⟨track_iteration_example,
   resubmission_preserves_identity 5 tx0 0 tx0resub 1 track_iteration_example⟩
